import Mathlib

/-!
Verification of the dairy milk tracker (`new_milk/milk_tracker.py`).

The development shallowly embeds the entry store (`MilkDatabase` backed by
an SQLite table with an AUTOINCREMENT integer key), the aggregation block
of `main` (totals and the average mandi rate), and the PDF report
exporter `generate_pdf`.  Quantities and rates (Python floats / SQLite
REAL) are modelled as rationals; date strings stay strings, as in the
source.
-/

/-- One milk record, with the thirteen non-id columns of the `entries`
table (`MilkEntry` dataclass in the source). -/
structure MilkEntry where
  customer_name : String
  date_start : String
  date_end : String
  morning_mound : ℚ
  morning_sair : ℤ
  morning_rate : ℚ
  evening_mound : ℚ
  evening_sair : ℤ
  evening_rate : ℚ
  rent : ℚ
  commission : ℚ
  bandi : ℚ
  paid_amount : ℚ
deriving DecidableEq, Repr

/-- A stored row: the auto-assigned integer id plus the entry fields. -/
structure StoredRow where
  id : ℕ
  entry : MilkEntry
deriving DecidableEq, Repr

/-- State of the `entries` table.  `seq` models SQLite's AUTOINCREMENT
sequence counter: the largest id ever assigned (0 when none). -/
structure MilkDatabase where
  rows : List StoredRow
  seq : ℕ
deriving DecidableEq, Repr

/-- A freshly created table (`create_table` on a new database). -/
def initDB : MilkDatabase := ⟨[], 0⟩

/-- `MilkDatabase.insert_entry`: appends the record, letting SQLite
assign the next AUTOINCREMENT id (`seq + 1`, starting from 1). -/
def insert_entry (db : MilkDatabase) (e : MilkEntry) : MilkDatabase :=
  ⟨db.rows ++ [⟨db.seq + 1, e⟩], db.seq + 1⟩

/-- Successive inserts of a list of entries. -/
def insertMany (db : MilkDatabase) (es : List MilkEntry) : MilkDatabase :=
  es.foldl insert_entry db

/-- `MilkDatabase.fetch_all`: unfiltered scan, in rowid order. -/
def fetch_all (db : MilkDatabase) : List StoredRow := db.rows

/-- Models SQLite's `strftime('%Y-%m', s)` on the ISO `YYYY-MM-DD`
date strings the application stores: the 7-character year-month prefix. -/
def yearMonthOf (s : String) : String := s.take 7

/-- `MilkDatabase.get_monthly_report`: rows whose `date_start` has the
given year-month, via `strftime('%Y-%m', date_start) = month`. -/
def get_monthly_report (db : MilkDatabase) (month : String) : List StoredRow :=
  db.rows.filter (fun r => yearMonthOf r.entry.date_start = month)

/-- `MilkDatabase.get_daily_report`: rows with `date_start = date`. -/
def get_daily_report (db : MilkDatabase) (date : String) : List StoredRow :=
  db.rows.filter (fun r => r.entry.date_start = date)

/-- `milk_qty` of one row in the aggregation loop of `main`. -/
def milkQty (e : MilkEntry) : ℚ := e.morning_mound + e.evening_mound

/-- `total_payment` of one row in the aggregation loop of `main`. -/
def entryPayment (e : MilkEntry) : ℚ :=
  e.morning_mound * e.morning_rate + e.evening_mound * e.evening_rate

/-- The `mandi_rates` list built by the loop in `main`: one rate per row
with positive total quantity, in row order. -/
def mandiRates : List MilkEntry → List ℚ
  | [] => []
  | e :: es =>
    if 0 < milkQty e then entryPayment e / milkQty e :: mandiRates es
    else mandiRates es

/-- `avg_mandi_rate = sum(mandi_rates) / len(mandi_rates) if mandi_rates
else 0` in `main`. -/
def avgMandiRate (es : List MilkEntry) : ℚ :=
  if (mandiRates es).isEmpty then 0
  else (mandiRates es).sum / (mandiRates es).length

/-- The summary block the daily report computes and displays. -/
structure Summary where
  total_morning : ℚ
  total_evening : ℚ
  total_milk : ℚ
  total_paid : ℚ
  avg_rate : ℚ
deriving DecidableEq, Repr

/-- The aggregation of `main` (Daily Report branch, lines 211-228):
column sums of the fetched rows plus the average mandi rate. -/
def aggregate (es : List MilkEntry) : Summary :=
  ⟨(es.map MilkEntry.morning_mound).sum,
   (es.map MilkEntry.evening_mound).sum,
   (es.map (fun e => e.morning_mound + e.evening_mound)).sum,
   (es.map MilkEntry.paid_amount).sum,
   avgMandiRate es⟩

/-- Spec-side definition of the average mandi rate, following the spec's
words: the unweighted arithmetic mean of the per-entry rates over the
entries with positive total quantity, 0 when no entry qualifies. -/
def specAvgRate (es : List MilkEntry) : ℚ :=
  let qs := es.filter (fun e => 0 < e.morning_mound + e.evening_mound)
  if qs.isEmpty then 0
  else (qs.map (fun e =>
      (e.morning_mound * e.morning_rate + e.evening_mound * e.evening_rate)
        / (e.morning_mound + e.evening_mound))).sum / qs.length

/-- The tabular input to `generate_pdf`: a pandas DataFrame reduced to
its column names and its rows of (stringified) cell values. -/
structure DataFrame where
  columns : List String
  rows : List (List String)
deriving DecidableEq, Repr

/-- One rendered `pdf.cell(width, 10, text, border=1)`. -/
structure PdfCell where
  width : ℚ
  text : String
deriving DecidableEq, Repr

/-- The rendered document: the centred title cell, the header row of
column-name cells, and one row of cells per DataFrame row. -/
structure PdfDoc where
  titleCell : PdfCell
  headerRow : List PdfCell
  bodyRows : List (List PdfCell)
deriving DecidableEq, Repr

/-- `pdf.w` for the default FPDF page (A4 portrait): 210 mm. -/
def pageWidth : ℚ := 210

/-- `col_width = pdf.w / (len(df.columns) + 1)` in `generate_pdf`. -/
def colWidth (df : DataFrame) : ℚ := pageWidth / (df.columns.length + 1)

/-- `generate_pdf`: the title cell (width 200, centred), one header cell
per column, then one cell per item of each row, all at `col_width`. -/
def generate_pdf (df : DataFrame) (title : String) : PdfDoc :=
  ⟨⟨200, title⟩,
   df.columns.map (fun c => ⟨colWidth df, c⟩),
   df.rows.map (fun row => row.map (fun item => ⟨colWidth df, item⟩))⟩

/-- The table rows of the rendered document: the header row followed by
the body rows. -/
def tableRows (d : PdfDoc) : List (List PdfCell) := d.headerRow :: d.bodyRows

/-- A string is representable in Latin-1 iff every character's code
point is at most 255. -/
def latin1Encodable (s : String) : Bool :=
  s.toList.all (fun c => c.toNat ≤ 255)

/-- Python's `str.encode('latin-1')`: the code points as bytes, or a
`UnicodeEncodeError` (here `none`) if some character does not fit. -/
def encodeLatin1 (s : String) : Option (List ℕ) :=
  if latin1Encodable s then some (s.toList.map Char.toNat) else none

/-- The text payload `generate_pdf` feeds into the document, in render
order: the title, the column names, then every cell value. -/
def docTexts (df : DataFrame) (title : String) : List String :=
  title :: (df.columns ++ df.rows.flatten)

/-- Concatenation of the text payload, as it sits inside the single
output string that line 98 encodes. -/
def joinTexts : List String → String
  | [] => ""
  | s :: rest => s ++ joinTexts rest

/-- `pdf.output(dest='S').encode('latin-1')` on line 98: Latin-1
encoding of the output string (whose non-ASCII content is exactly the
text payload), failing when some character is not representable. -/
def pdfOutputBytes (df : DataFrame) (title : String) : Option (List ℕ) :=
  encodeLatin1 (joinTexts (docTexts df title))

/-- Division that signals a zero divisor instead of defaulting to 0,
used to express that the aggregation never divides by zero. -/
def checkedDiv (a b : ℚ) : Option ℚ :=
  if b = 0 then none else some (a / b)

/-- The `mandi_rates` loop with every division checked. -/
def mandiRatesChecked : List MilkEntry → Option (List ℚ)
  | [] => some []
  | e :: es =>
    if 0 < milkQty e then
      (checkedDiv (entryPayment e) (milkQty e)).bind (fun r =>
        (mandiRatesChecked es).map (fun rs => r :: rs))
    else mandiRatesChecked es

/-- The average mandi rate with every division checked. -/
def avgMandiRateChecked (es : List MilkEntry) : Option ℚ :=
  (mandiRatesChecked es).bind (fun rs =>
    if rs.isEmpty then some 0 else checkedDiv rs.sum rs.length)

/-- A concrete entry used to instantiate hypothesis-bearing theorems. -/
def sampleEntry : MilkEntry :=
  ⟨"ali", "2024-06-05", "2024-06-07", 2, 1, 10, 4, 1, 20, 5, 1, 2, 100⟩

/-- A second concrete entry, with a different start month. -/
def sampleEntry2 : MilkEntry :=
  ⟨"baji", "2024-07-01", "2024-07-02", 0, 0, 0, 4, 2, 20, 0, 0, 0, 80⟩

/-- A concrete two-row database reachable by two inserts. -/
def sampleDB : MilkDatabase := insert_entry (insert_entry initDB sampleEntry) sampleEntry2

/-- The first stored row of `sampleDB`. -/
def sampleRow : StoredRow := ⟨1, sampleEntry⟩

/-! ### Helper lemmas -/

theorem mandiRates_eq_filter_map (es : List MilkEntry) :
    mandiRates es =
      (es.filter (fun e => 0 < milkQty e)).map (fun e => entryPayment e / milkQty e) := by
  induction es with
  | nil => rfl
  | cons e es ih =>
    by_cases h : 0 < milkQty e
    · simp [mandiRates, List.filter_cons, h, ih]
    · simp [mandiRates, List.filter_cons, h, ih]

theorem mandiRatesChecked_eq (es : List MilkEntry) :
    mandiRatesChecked es = some (mandiRates es) := by
  induction es with
  | nil => rfl
  | cons e es ih =>
    by_cases h : 0 < milkQty e
    · simp [mandiRatesChecked, mandiRates, h, ih, checkedDiv, h.ne']
    · simp [mandiRatesChecked, mandiRates, h, ih]

/-! ### Claims -/

/-- C1: the reported average mandi rate is the unweighted arithmetic mean
of the per-entry rates over the entries with positive total quantity
(zero-quantity entries excluded, 0 when none qualifies); on the two-entry
scenario (2 mounds at 10 in the morning, 4 mounds at 20 in the evening)
it is 15, not the ratio of sums 100/6. -/
theorem C1_avg_rate_is_mean_of_per_entry_rates :
    (∀ es : List MilkEntry, avgMandiRate es = specAvgRate es) ∧
    avgMandiRate
      [⟨"a", "2024-06-05", "2024-06-05", 2, 0, 10, 0, 0, 0, 0, 0, 0, 0⟩,
       ⟨"b", "2024-06-05", "2024-06-05", 0, 0, 0, 4, 0, 20, 0, 0, 0, 0⟩] = 15 := by
  constructor
  · intro es
    simp [avgMandiRate, specAvgRate, mandiRates_eq_filter_map, milkQty, entryPayment]
  · norm_num [avgMandiRate, mandiRates, milkQty, entryPayment]

/-- C4: the aggregation applied to an empty sequence of entries is
defined and returns all-zero totals and a zero average rate. -/
theorem C4_aggregate_empty : aggregate [] = ⟨0, 0, 0, 0, 0⟩ := rfl

/-- C10: the average-mandi-rate computation never divides by zero: with
every division checked for a zero divisor, the aggregation still
succeeds on every input and yields the same value. -/
theorem C10_aggregation_total (es : List MilkEntry) :
    avgMandiRateChecked es = some (avgMandiRate es) := by
  simp only [avgMandiRateChecked, mandiRatesChecked_eq, Option.some_bind]
  by_cases h : (mandiRates es).isEmpty
  · simp [avgMandiRate, h]
  · have h0 : mandiRates es ≠ [] := by simpa [List.isEmpty_iff] using h
    have hlen : ((mandiRates es).length : ℚ) ≠ 0 :=
      Nat.cast_ne_zero.mpr (Nat.pos_iff_ne_zero.mp (List.length_pos.mpr h0))
    simp [avgMandiRate, h, checkedDiv, hlen]

/-- C2: the monthly report returns exactly the stored rows whose
`date_start` has the requested year-month (matched on `date_start`
only, never on `date_end`), and a row returned for its start month is
returned for no other month. -/
theorem C2_fetch_by_month (db : MilkDatabase) (m : String) (r : StoredRow) :
    (r ∈ get_monthly_report db m ↔
      r ∈ db.rows ∧ yearMonthOf r.entry.date_start = m) ∧
    (∀ m2 : String, r ∈ get_monthly_report db m → m2 ≠ m →
      r ∉ get_monthly_report db m2) := by
  constructor
  · simp [get_monthly_report, List.mem_filter]
  · intro m2 hm hne hm2
    simp [get_monthly_report, List.mem_filter] at hm hm2
    exact hne (hm2.2.symm.trans hm.2)

/-- C2 witness: the characterization instantiated on a concrete two-row
store: the June entry is in the June report and in no other month's. -/
theorem C2_fetch_by_month_witness :
    sampleRow ∈ get_monthly_report sampleDB "2024-06" ∧
    sampleRow ∉ get_monthly_report sampleDB "2024-07" :=
  ⟨((C2_fetch_by_month sampleDB "2024-06" sampleRow).1).mpr (by decide),
   (C2_fetch_by_month sampleDB "2024-06" sampleRow).2 "2024-07"
     (((C2_fetch_by_month sampleDB "2024-06" sampleRow).1).mpr (by decide))
     (by decide)⟩

/-- C3: the daily report returns exactly the stored rows whose
`date_start` equals the given date, as a sublist of the stored rows
(hence in insertion order), and in id order whenever the store is. -/
theorem C3_fetch_by_date (db : MilkDatabase) (d : String) :
    List.Sublist (get_daily_report db d) db.rows ∧
    (∀ r : StoredRow, r ∈ get_daily_report db d ↔
      r ∈ db.rows ∧ r.entry.date_start = d) ∧
    (List.Pairwise (fun a b => a.id < b.id) db.rows →
      List.Pairwise (fun a b => a.id < b.id) (get_daily_report db d)) := by
  refine ⟨List.filter_sublist db.rows, ?_, ?_⟩
  · intro r
    simp [get_daily_report, List.mem_filter]
  · intro hp
    exact hp.sublist (List.filter_sublist db.rows)

/-- C3 witness: on the concrete two-row store, whose rows are in id
order, the daily report is in id order too. -/
theorem C3_fetch_by_date_witness :
    List.Pairwise (fun a b => a.id < b.id)
      (get_daily_report sampleDB "2024-06-05") :=
  (C3_fetch_by_date sampleDB "2024-06-05").2.2 (by decide)

/-- Invariant of the store preserved by one insert: the ids along the
row list are strictly increasing and all bounded by the sequence
counter. -/
theorem insert_entry_inv (db : MilkDatabase) (e : MilkEntry)
    (h1 : List.Pairwise (fun a b => a.id < b.id) db.rows)
    (h2 : ∀ r ∈ db.rows, r.id ≤ db.seq) :
    List.Pairwise (fun a b => a.id < b.id) (insert_entry db e).rows ∧
    ∀ r ∈ (insert_entry db e).rows, r.id ≤ (insert_entry db e).seq := by
  constructor
  · rw [insert_entry, List.pairwise_append]
    refine ⟨h1, List.pairwise_singleton _ _, ?_⟩
    intro a ha b hb
    simp only [List.mem_singleton] at hb
    subst hb
    exact Nat.lt_succ_of_le (h2 a ha)
  · intro r hr
    rw [insert_entry] at hr
    rcases List.mem_append.mp hr with h | h
    · exact Nat.le_succ_of_le (h2 r h)
    · simp only [List.mem_singleton] at h
      subst h
      exact Nat.le_refl _

/-- The invariant holds after any run of successive inserts from a
state satisfying it. -/
theorem insertMany_inv (es : List MilkEntry) (db : MilkDatabase)
    (h1 : List.Pairwise (fun a b => a.id < b.id) db.rows)
    (h2 : ∀ r ∈ db.rows, r.id ≤ db.seq) :
    List.Pairwise (fun a b => a.id < b.id) (insertMany db es).rows ∧
    ∀ r ∈ (insertMany db es).rows, r.id ≤ (insertMany db es).seq := by
  induction es generalizing db with
  | nil => exact ⟨h1, h2⟩
  | cons e es ih =>
    have h := insert_entry_inv db e h1 h2
    exact ih (insert_entry db e) h.1 h.2

/-- C5: after any sequence of successive inserts into a fresh store the
assigned ids are strictly increasing (hence unique), and the id the
next insert would assign differs from every id already present, so ids
are never reused. -/
theorem C5_ids_strictly_increasing (es : List MilkEntry) :
    List.Pairwise (· < ·) ((insertMany initDB es).rows.map StoredRow.id) ∧
    ∀ (e : MilkEntry), ∀ r ∈ (insertMany initDB es).rows,
      r.id ≠ (insert_entry (insertMany initDB es) e).seq := by
  have h := insertMany_inv es initDB (List.Pairwise.nil) (by simp [initDB])
  constructor
  · exact List.pairwise_map.mpr h.1
  · intro e r hr
    have hle := h.2 r hr
    rw [insert_entry]
    exact Nat.ne_of_lt (Nat.lt_succ_of_le hle)

/-- C5 witness: two concrete successive inserts produce strictly
increasing ids. -/
theorem C5_ids_strictly_increasing_witness :
    List.Pairwise (· < ·)
      ((insertMany initDB [sampleEntry, sampleEntry2]).rows.map StoredRow.id) :=
  (C5_ids_strictly_increasing [sampleEntry, sampleEntry2]).1

/-- C6: the store is append-only: an insert appends one fresh row at the
end, leaving every previously stored row (id and all fields) in place,
and every previously stored row is still present afterwards. -/
theorem C6_append_only (db : MilkDatabase) (e : MilkEntry) :
    (insert_entry db e).rows = db.rows ++ [⟨db.seq + 1, e⟩] ∧
    ∀ r ∈ db.rows, r ∈ (insert_entry db e).rows := by
  refine ⟨rfl, fun r hr => ?_⟩
  rw [insert_entry]
  exact List.mem_append_left _ hr

/-- C6 witness: a concrete previously stored row survives a further
insert. -/
theorem C6_append_only_witness :
    sampleRow ∈ (insert_entry sampleDB sampleEntry).rows :=
  (C6_append_only sampleDB sampleEntry).2 sampleRow (by decide)

/-- C7: insert stores every non-id field exactly as provided, so
inserting an entry dated 2024-06-05 into an empty store and fetching
that date returns exactly one row, with id 1 and the entry unchanged. -/
theorem C7_store_fetch_round_trip (e : MilkEntry)
    (h : e.date_start = "2024-06-05") :
    get_daily_report (insert_entry initDB e) "2024-06-05" = [⟨1, e⟩] := by
  simp [get_daily_report, insert_entry, initDB, List.filter_cons, h]

/-- C7 witness: the round trip on a concrete entry. -/
theorem C7_store_fetch_round_trip_witness :
    get_daily_report (insert_entry initDB sampleEntry) "2024-06-05" =
      [⟨1, sampleEntry⟩] :=
  C7_store_fetch_round_trip sampleEntry rfl

/-- C8: the rendered document has the given title, a header row plus one
row per DataFrame row (N + 1 table rows), and every table cell is
rendered at width `page_width / (number of columns + 1)`. -/
theorem C8_pdf_table_shape (df : DataFrame) (t : String) :
    (generate_pdf df t).titleCell.text = t ∧
    (tableRows (generate_pdf df t)).length = df.rows.length + 1 ∧
    ((tableRows (generate_pdf df t)).all (fun row =>
      row.all (fun c =>
        c.width = pageWidth / (df.columns.length + 1)))) = true := by
  refine ⟨rfl, by simp [tableRows, generate_pdf], ?_⟩
  simp only [tableRows, generate_pdf, List.all_eq_true, List.mem_cons,
    List.mem_map, decide_eq_true_eq]
  intro row hrow c hc
  rcases hrow with h | ⟨src, _, h⟩
  · subst h
    rcases List.mem_map.mp hc with ⟨name, _, hcell⟩
    rw [← hcell, colWidth]
  · subst h
    rcases List.mem_map.mp hc with ⟨item, _, hcell⟩
    rw [← hcell, colWidth]

/-- Latin-1 encodability of a concatenation is encodability of every
part. -/
theorem latin1Encodable_joinTexts (l : List String) :
    latin1Encodable (joinTexts l) = l.all latin1Encodable := by
  induction l with
  | nil => rfl
  | cons s rest ih =>
    simp only [joinTexts, latin1Encodable, List.all_cons, ← ih]
    simp [List.all_append]

/-- The Latin-1 encoder succeeds exactly on encodable strings. -/
theorem isSome_encodeLatin1 (s : String) :
    (encodeLatin1 s).isSome = latin1Encodable s := by
  by_cases h : latin1Encodable s = true <;>
    simp [encodeLatin1, h]

/-- C9: the export produces output bytes exactly when the title, every
column name and every cell value is representable in Latin-1;
otherwise the encode step fails and no bytes are produced. -/
theorem C9_encoding_failure_iff (df : DataFrame) (t : String) :
    (pdfOutputBytes df t).isSome = (docTexts df t).all latin1Encodable := by
  rw [pdfOutputBytes, isSome_encodeLatin1, latin1Encodable_joinTexts]
